import Mathlib

/-!
Verification development for the bedrock-passport module.

The development shallowly embeds the two source files of the repository:

* `lib/passport.js` — authentication glue: `checkAuthentication`,
  `optionallyAuthenticated`, `ensureAuthenticated`, `login`;
* the session-service route file — route wiring for POST /join,
  POST /session/login, POST /session/password/reset, POST /session/passcode,
  together with the private `_login` and `_createIdentity` helpers.

External collaborators (the identity module `bedrock-identity`, the schema
validator, the passport strategies, `req.logIn`) are modelled as oracles: a
per-request record of pure functions giving the outcome of each collaborator
call.  Callback-style control flow becomes explicit `Except` / sum-typed
results, and mutation of `req` becomes explicit state passing.
-/

/-- An identity record, reduced to the only field the embedded code reads:
its `id`. -/
structure Identity where
  id : String
deriving DecidableEq, Repr

/-- A passport user object as produced by the session and signature checks:
a wrapper holding an identity. -/
structure User where
  identity : Identity
deriving DecidableEq, Repr

/-- A `BedrockError`.  The embedded fields are the message, the type name,
the `public` flag and the `httpStatusCode` detail; `wrapped` additionally
carries the `cause` error passed as the fourth constructor argument in the
source.  Other ad-hoc detail fields (such as the `sysIdentifier` echoed in
the password-reset error) are not modelled. -/
inductive BedrockError : Type where
  | base (message : String) (name : String) (isPublic : Bool)
      (httpStatusCode : Nat)
  | wrapped (message : String) (name : String) (isPublic : Bool)
      (httpStatusCode : Nat) (cause : BedrockError)
deriving DecidableEq, Repr

/-- The `name` field of a `BedrockError`. -/
def BedrockError.name : BedrockError → String
  | .base _ n _ _ => n
  | .wrapped _ n _ _ _ => n

/-- The `message` field of a `BedrockError`. -/
def BedrockError.message : BedrockError → String
  | .base m _ _ _ => m
  | .wrapped m _ _ _ _ => m

/-- The `httpStatusCode` detail of a `BedrockError`. -/
def BedrockError.httpStatusCode : BedrockError → Nat
  | .base _ _ _ s => s
  | .wrapped _ _ _ s _ => s

/-!
## lib/passport.js — checkAuthentication

The request state carries the fields of `req` that `checkAuthentication`
reads, plus the outcome of the HttpSignature strategy on this request (the
strategy itself is an excluded collaborator).  Passport defines
`req.isAuthenticated()` as "req.user is set", so the session check below
reads `user` directly.
-/

/-- The request state seen by the `lib/passport.js` middleware: `req.user`
(absent meaning unset), the config flag
`passport.authentication.httpSignature.enabled`, and the outcome the
HttpSignature strategy would deliver for this request (an error, a user, or
no user). -/
structure ReqState where
  user : Option User
  httpSignatureEnabled : Bool
  httpSignatureUser : Except BedrockError (Option User)
deriving Repr

/-- The `session` task of `checkAuthentication`: callback with `req.user`
when `req.isAuthenticated()`, else `false` (here `none`). -/
def sessionCheck (req : ReqState) : Option User :=
  req.user

/-- The `httpSignature` task of `checkAuthentication`: `false` when the
config flag is off, otherwise the strategy outcome. -/
def httpSignatureCheck (req : ReqState) :
    Except BedrockError (Option User) :=
  if req.httpSignatureEnabled then req.httpSignatureUser else .ok none

/-- The mismatch error built inside the `auth` task. -/
def mismatchError : BedrockError :=
  .base "Request authentication mismatch." "bedrock.website.PermissionDenied"
    true 400

/-- The `auth` task: when both the session result and the httpSignature
result are set and their identity ids differ, error with `mismatchError`;
otherwise pass on `results.session || results.httpSignature || false`. -/
def authCombine (session httpSignature : Option User) :
    Except BedrockError (Option User) :=
  match session, httpSignature with
  | some s, some h =>
    if s.identity.id ≠ h.identity.id then .error mismatchError
    else .ok (some s)
  | some s, none => .ok (some s)
  | none, h => .ok h

/-- The final wrapper of `checkAuthentication`: any error from the
`async.auto` run is wrapped in a 400 `PermissionDenied` error. -/
def wrapAuthError (e : BedrockError) : BedrockError :=
  .wrapped "Request authentication error." "bedrock.website.PermissionDenied"
    true 400 e

/-- `api.checkAuthentication`: run the session and httpSignature checks,
reconcile them with `authCombine`, and wrap any error.  `.ok none` plays the
role of calling back with `false`. -/
def checkAuthentication (req : ReqState) :
    Except BedrockError (Option User) :=
  match httpSignatureCheck req with
  | .error e => .error (wrapAuthError e)
  | .ok hs =>
    match authCombine (sessionCheck req) hs with
    | .error e => .error (wrapAuthError e)
    | .ok info => .ok info

/-!
`async.auto` runs the `session` and `httpSignature` tasks in parallel and
runs `auth` once both have completed.  To state order-independence we embed
the run with an explicit completion order: each task computes its result
from `req` alone (neither writes shared state), so the order is the single
point at which a schedule could matter.
-/

/-- Which of the two parallel tasks of `checkAuthentication` completes
first. -/
inductive CompletionOrder : Type where
  | sessionFirst
  | httpSignatureFirst
deriving DecidableEq, Repr

/-- The `auth` task plus final wrapper as a function of the two recorded
task results. -/
def authFromResults (session : Option User)
    (httpSignature : Except BedrockError (Option User)) :
    Except BedrockError (Option User) :=
  match httpSignature with
  | .error e => .error (wrapAuthError e)
  | .ok hs =>
    match authCombine session hs with
    | .error e => .error (wrapAuthError e)
    | .ok info => .ok info

/-- `api.checkAuthentication` run under an explicit completion order of the
two parallel tasks: the order decides which task computes and records its
result first. -/
def checkAuthenticationRun (order : CompletionOrder) (req : ReqState) :
    Except BedrockError (Option User) :=
  let results :=
    match order with
    | .sessionFirst =>
      let s := sessionCheck req
      let h := httpSignatureCheck req
      (s, h)
    | .httpSignatureFirst =>
      let h := httpSignatureCheck req
      let s := sessionCheck req
      (s, h)
  authFromResults results.1 results.2

/-!
## lib/passport.js — optionallyAuthenticated and ensureAuthenticated

Both middlewares may mutate `req.user` and end by invoking `next`, either
with no argument or with an error.  The embedding returns the `next` call
together with the final request state.
-/

/-- How a middleware invoked its `next` continuation. -/
inductive NextCall : Type where
  | noErr
  | withErr (e : BedrockError)
deriving DecidableEq, Repr

/-- `api.optionallyAuthenticated`: on a `checkAuthentication` error pass it
to `next`; when auth info was found set `req.user` to it; then `next()`. -/
def optionallyAuthenticated (req : ReqState) : NextCall × ReqState :=
  match checkAuthentication req with
  | .error e => (.withErr e, req)
  | .ok info =>
    match info with
    | some u => (.noErr, { req with user := some u })
    | none => (.noErr, req)

/-- The error `ensureAuthenticated` raises for an unauthenticated
request. -/
def notAuthenticatedError : BedrockError :=
  .base "Not authenticated." "bedrock.website.PermissionDenied" true 400

/-- `api.ensureAuthenticated`: run `optionallyAuthenticated`; pass through
its error; then `next()` when `req.user` is set, else `next` with
`notAuthenticatedError`. -/
def ensureAuthenticated (req : ReqState) : NextCall × ReqState :=
  match optionallyAuthenticated req with
  | (.withErr e, req1) => (.withErr e, req1)
  | (.noErr, req1) =>
    match req1.user with
    | some _ => (.noErr, req1)
    | none => (.withErr notAuthenticatedError, req1)

/-!
## Login: `api.login` (lib/passport.js) and `_login` (route file)

Both functions call `passport.authenticate` with the `bedrock.password`
strategy and a custom callback.  The strategy outcome, the identity lookups
and `req.logIn` are collaborator behaviour, captured by oracles.  A call of
either function ends in exactly one delivery: a call of the `callback`
argument (with error, user and choice positions) or a call of `next` with
an error.  When the strategy reports an error with no user, both functions
dereference `info.matches` on an absent `info` identically, so that case is
outside the model.
-/

/-- A record of a call into an excluded collaborator, for tracing which
collaborators a handler invoked. -/
inductive ExternalCall : Type where
  | resolveIdentityIdentifier (identifier : String)
  | setIdentityPassword (id : String)
  | getIdentities (hashedIds : List String)
  | sendIdentityPasscodes (identities : List Identity) (usage : String)
  | getIdentity (id : String)
  | authenticatePassword
  | logIn
  | createIdentity
deriving DecidableEq, Repr

/-- The outcome of the `bedrock.password` strategy for this request:
either a user was verified, or the strategy failed, reporting the email
used and, when several identities matched the credentials, their ids. -/
inductive AuthenticateResult : Type where
  | authenticated (user : User)
  | failed (email : String) (matchIds : Option (List String))
deriving DecidableEq, Repr

/-- The `choice` structure built for multiple identity matches: the email
used and the mapping identityId to identity (as an association list in
match order). -/
structure Choice where
  email : String
  identities : List (String × Identity)
deriving DecidableEq, Repr

/-- The single delivery a login function performs: a `callback(err, user,
choice)` call, or a `next(err)` call. -/
inductive LoginOutcome : Type where
  | viaCallback (err : Option BedrockError) (user : Option User)
      (choice : Option Choice)
  | viaNext (e : BedrockError)
deriving DecidableEq, Repr

/-- Per-request behaviour of the excluded collaborators used by the login
functions and the session routes. -/
structure Collab where
  validate : String → Option BedrockError
  resolveIdentityIdentifier : String → Except BedrockError (List String)
  setIdentityPassword : String → Bool
  hash : String → String
  getIdentities : List String → Except BedrockError (List Identity)
  sendIdentityPasscodes : List Identity → String → Option BedrockError
  getIdentity : String → Except BedrockError Identity
  authenticatePassword : AuthenticateResult
  logIn : User → Option BedrockError
  createIdentity : Except BedrockError Identity
  isDuplicateError : BedrockError → Bool

/-- The `async.forEach` over `info.matches`: look up every id and collect
`id → identity` into the choice map, stopping at the first lookup error;
also returns the trace of lookups made. -/
def buildChoice (g : String → Except BedrockError Identity) :
    List String →
      Except BedrockError (List (String × Identity)) × List ExternalCall
  | [] => (.ok [], [])
  | id :: rest =>
    match g id with
    | .error e => (.error e, [.getIdentity id])
    | .ok identity =>
      match buildChoice g rest with
      | (.error e, t) => (.error e, .getIdentity id :: t)
      | (.ok m, t) => (.ok ((id, identity) :: m), .getIdentity id :: t)

/-- The invalid-login error.  `api.login` spells the type out as
`bedrock.services.InvalidLogin`; `_login` builds the same string from its
MODULE_NS constant. -/
def invalidLoginError : BedrockError :=
  .base
    ("The email address and password combination " ++
      "you entered is incorrect.")
    "bedrock.services.InvalidLogin" true 400

/-- `api.login` from lib/passport.js.  Every delivery, successes and errors
alike, goes through the `callback` argument. -/
def apiLogin (c : Collab) : LoginOutcome × List ExternalCall :=
  match c.authenticatePassword with
  | .authenticated user =>
    match c.logIn user with
    | some e =>
      (.viaCallback (some e) (some user) none, [.authenticatePassword, .logIn])
    | none =>
      (.viaCallback none (some user) none, [.authenticatePassword, .logIn])
  | .failed email (some ms) =>
    match buildChoice c.getIdentity ms with
    | (.error e, t) =>
      (.viaCallback (some e) none none, .authenticatePassword :: t)
    | (.ok m, t) =>
      (.viaCallback none none (some ⟨email, m⟩), .authenticatePassword :: t)
  | .failed _ none =>
    (.viaCallback (some invalidLoginError) none none, [.authenticatePassword])

/-- The private `_login` of the route file.  Identical to `api.login`
except that identity-lookup errors and the invalid-login error are passed
to `next` instead of the callback. -/
def routeLogin (c : Collab) : LoginOutcome × List ExternalCall :=
  match c.authenticatePassword with
  | .authenticated user =>
    match c.logIn user with
    | some e =>
      (.viaCallback (some e) (some user) none, [.authenticatePassword, .logIn])
    | none =>
      (.viaCallback none (some user) none, [.authenticatePassword, .logIn])
  | .failed email (some ms) =>
    match buildChoice c.getIdentity ms with
    | (.error e, t) =>
      (.viaNext e, .authenticatePassword :: t)
    | (.ok m, t) =>
      (.viaCallback none none (some ⟨email, m⟩), .authenticatePassword :: t)
  | .failed _ none =>
    (.viaNext invalidLoginError, [.authenticatePassword])

/-- The data delivered by a login outcome, forgetting the channel: the
error, user and choice values (a `next(err)` call carries error `e`, no
user and no choice). -/
def outcomeData (o : LoginOutcome) :
    Option BedrockError × Option User × Option Choice :=
  match o with
  | .viaCallback e u ch => (e, u, ch)
  | .viaNext e => (some e, none, none)

/-!
## The session-service route file

Each POST route is registered as `app.post(path, validate(schema),
handler)`.  Express dispatches the middlewares in registration order: a
middleware either calls `next()` (the next middleware runs), calls
`next(err)` (dispatch stops, the error handlers take over), or responds
(dispatch stops).  Handlers are embedded as functions of the collaborator
oracles and the request, returning their step outcome together with the
trace of collaborator calls they made.
-/

/-- The request data the embedded session routes read: the body field
`sysIdentifier` and the query parameter `usage`. -/
structure Request where
  sysIdentifier : String
  queryUsage : Option String
deriving DecidableEq, Repr

/-- What one middleware does with the dispatch: pass on, abort with an
error, or respond with a status code (`res.send(204)` / `res.json`). -/
inductive StepResult : Type where
  | next
  | nextErr (e : BedrockError)
  | send (status : Nat)
deriving DecidableEq, Repr

/-- A route middleware: collaborator oracles and request in, step result
and collaborator-call trace out. -/
def Middleware : Type :=
  Collab → Request → StepResult × List ExternalCall

/-- How a whole route dispatch ended. -/
inductive RouteOutcome : Type where
  | handled (status : Nat)
  | errored (e : BedrockError)
  | fallthrough
deriving DecidableEq, Repr

/-- Express dispatch over a middleware chain: run each middleware in
order, stopping at the first error or response, and concatenate the
collaborator-call traces of the middlewares that ran. -/
def runChain (mws : List Middleware) (c : Collab) (req : Request) :
    RouteOutcome × List ExternalCall :=
  match mws with
  | [] => (.fallthrough, [])
  | mw :: rest =>
    match mw c req with
    | (.next, t) =>
      match runChain rest c req with
      | (o, t2) => (o, t ++ t2)
    | (.nextErr e, t) => (.errored e, t)
    | (.send s, t) => (.handled s, t)

/-- The `validate(schemaName)` middleware of the external schema
validator: pass on when the body validates, else pass the validation error
to `next`.  It makes no collaborator calls of the identity module or
passport. -/
def validateMw (schemaName : String) : Middleware :=
  fun c _ =>
    match c.validate schemaName with
    | none => (.next, [])
    | some e => (.nextErr e, [])

/-!
### POST /session/password/reset

The handler resolves the submitted `sysIdentifier` and then runs the
`async.until` retry loop: while `success` is still 0, shift the next id off
the list and try `setIdentityPassword`; a success sets `success = 1`, an
exhausted list sets `success = -1`.  `resetLoop` is that loop as a
structural recursion over the remaining ids, returning whether
`success === 1` and the list of ids attempted, in order.
-/

/-- The `async.until` password-reset retry loop: try
`setIdentityPassword` on each id in order, stopping at the first success;
returns (`success === 1`, attempted ids in order). -/
def resetLoop (setPw : String → Bool) :
    List String → Bool × List String
  | [] => (false, [])
  | id :: rest =>
    if setPw id then (true, [id])
    else
      let r := resetLoop setPw rest
      (r.1, id :: r.2)

/-- The error raised when no resolved identity accepted the new
password. -/
def passwordResetFailedError : BedrockError :=
  .base "The password reset failed for the given identity."
    "bedrock.services.PasswordResetFailed" true 403

/-- The POST /session/password/reset handler: resolve the identifier, run
the retry loop, then 204 on success and `passwordResetFailedError`
otherwise. -/
def passwordResetHandler : Middleware :=
  fun c req =>
    match c.resolveIdentityIdentifier req.sysIdentifier with
    | .error e =>
      (.nextErr e, [.resolveIdentityIdentifier req.sysIdentifier])
    | .ok identityIds =>
      let r := resetLoop c.setIdentityPassword identityIds
      let trace := .resolveIdentityIdentifier req.sysIdentifier ::
        r.2.map ExternalCall.setIdentityPassword
      if r.1 then (.send 204, trace)
      else (.nextErr passwordResetFailedError, trace)

/-!
### POST /session/passcode
-/

/-- The error raised when the identifier resolves to no identities. -/
def identityNotFoundError : BedrockError :=
  .base "The given email address is not registered."
    "bedrock.services.IdentityNotFound" true 404

/-- The passcode usage computation: `reset` by default, `verify` when the
query parameter equals `verify` (the `reset` branch of the else-if restates
the default). -/
def passcodeUsage (queryUsage : Option String) : String :=
  if queryUsage = some "verify" then "verify"
  else if queryUsage = some "reset" then "reset"
  else "reset"

/-- The POST /session/passcode handler: resolve the identifier; 404 when
nothing resolved; otherwise look up the identities by hashed id, send each
one a passcode with the computed usage, and 204.  (The database records
the lookup returns are embedded directly as their `identity` field, the
only part the handler reads.) -/
def passcodeHandler : Middleware :=
  fun c req =>
    match c.resolveIdentityIdentifier req.sysIdentifier with
    | .error e =>
      (.nextErr e, [.resolveIdentityIdentifier req.sysIdentifier])
    | .ok identityIds =>
      if identityIds.length = 0 then
        (.nextErr identityNotFoundError,
          [.resolveIdentityIdentifier req.sysIdentifier])
      else
        let hashedIds := identityIds.map c.hash
        match c.getIdentities hashedIds with
        | .error e =>
          (.nextErr e,
            [.resolveIdentityIdentifier req.sysIdentifier,
              .getIdentities hashedIds])
        | .ok identities =>
          let usage := passcodeUsage req.queryUsage
          match c.sendIdentityPasscodes identities usage with
          | some e =>
            (.nextErr e,
              [.resolveIdentityIdentifier req.sysIdentifier,
                .getIdentities hashedIds,
                .sendIdentityPasscodes identities usage])
          | none =>
            (.send 204,
              [.resolveIdentityIdentifier req.sysIdentifier,
                .getIdentities hashedIds,
                .sendIdentityPasscodes identities usage])

/-!
### POST /session/login and POST /join
-/

/-- The POST /session/login handler: run `_login`; its `next` deliveries
and callback errors become `next(err)`; a logged-in user or a
multiple-identity choice is rendered as JSON (embedded as a 200
response). -/
def loginHandler : Middleware :=
  fun c _ =>
    match routeLogin c with
    | (.viaNext e, t) => (.nextErr e, t)
    | (.viaCallback (some e) _ _, t) => (.nextErr e, t)
    | (.viaCallback none _ _, t) => (.send 200, t)

/-- The duplicate-identity error `_createIdentity` substitutes for a
database duplicate error. -/
def duplicateIdentityError : BedrockError :=
  .base "Could not create identity, it is a duplicate."
    "bedrock.services.DuplicateIdentity" true 400

/-- `api._createIdentity`: create the identity record; a duplicate
database error is replaced by `duplicateIdentityError`.  (The
`brIdentity.created` event emission has no bearing on the embedded routes
and is not modelled.) -/
def createIdentityService (c : Collab) :
    Except BedrockError Identity × List ExternalCall :=
  match c.createIdentity with
  | .error e =>
    (if c.isDuplicateError e then .error duplicateIdentityError
     else .error e, [.createIdentity])
  | .ok identity => (.ok identity, [.createIdentity])

/-- The error wrapping a failed auto-login after identity creation.  Its
details object is empty in the source, so the public flag and status code
are embedded as `false` and `0`. -/
def autoLoginFailedError (cause : BedrockError) : BedrockError :=
  .wrapped "Could not create a session for the newly created identity."
    "bedrock.services.AutoLoginFailed" false 0 cause

/-- The POST /join handler: create the identity, then log it in with
`_login` (the body rewrite feeding the password strategy is folded into the
`authenticatePassword` oracle).  A `_login` callback error is wrapped as
`AutoLoginFailed`; multiple-match and success callbacks both reach the 201
response, since the join callback only inspects the error position. -/
def joinHandler : Middleware :=
  fun c _ =>
    match createIdentityService c with
    | (.error e, t) => (.nextErr e, t)
    | (.ok _, t) =>
      match routeLogin c with
      | (.viaNext e, t2) => (.nextErr e, t ++ t2)
      | (.viaCallback (some e) _ _, t2) =>
        (.nextErr (autoLoginFailedError e), t ++ t2)
      | (.viaCallback none _ _, t2) => (.send 201, t ++ t2)

/-- The registered middleware chain of POST /join. -/
def postJoinChain : List Middleware :=
  [validateMw "services.session.postJoin", joinHandler]

/-- The registered middleware chain of POST /session/login. -/
def postLoginChain : List Middleware :=
  [validateMw "services.session.postLogin", loginHandler]

/-- The registered middleware chain of POST /session/password/reset. -/
def postPasswordResetChain : List Middleware :=
  [validateMw "services.session.postPasswordReset", passwordResetHandler]

/-- The registered middleware chain of POST /session/passcode. -/
def postPasscodeChain : List Middleware :=
  [validateMw "services.session.postPasscode", passcodeHandler]

/-!
## Concrete instances used to instantiate the theorems
-/

/-- A concrete collaborator record: validation passes, the identifier
resolves to nothing, password sets fail, lookups succeed trivially, and
the password strategy fails with no matches. -/
def collabBase : Collab :=
  { validate := fun _ => none,
    resolveIdentityIdentifier := fun _ => .ok [],
    setIdentityPassword := fun _ => false,
    hash := fun s => s,
    getIdentities := fun _ => .ok [],
    sendIdentityPasscodes := fun _ _ => none,
    getIdentity := fun id => .ok ⟨id⟩,
    authenticatePassword := .failed "user@example.com" none,
    logIn := fun _ => none,
    createIdentity := .ok ⟨"urn:new"⟩,
    isDuplicateError := fun _ => false }

/-- A concrete validation error, for exercising failing validation. -/
def validationError0 : BedrockError :=
  .base "Invalid body." "bedrock.validation.ValidationError" true 400

/-- A collaborator record whose schema validation always fails. -/
def collabInvalidBody : Collab :=
  { collabBase with validate := fun _ => some validationError0 }

/-- A collaborator record where the identifier resolves to one identity
that accepts the password reset. -/
def collabResetOk : Collab :=
  { collabBase with
    resolveIdentityIdentifier := fun _ => .ok ["urn:i1"],
    setIdentityPassword := fun _ => true }

/-- A collaborator record where the identifier resolves to one identity
for the passcode route. -/
def collabPasscode : Collab :=
  { collabBase with
    resolveIdentityIdentifier := fun _ => .ok ["urn:i1"] }

/-- A concrete request body. -/
def reqEx : Request :=
  { sysIdentifier := "user@example.com", queryUsage := none }

/-- A request with no session user and the httpSignature check disabled. -/
def reqNone : ReqState :=
  { user := none, httpSignatureEnabled := false,
    httpSignatureUser := .ok none }

/-- A request where the session user and the signature user carry
different identity ids. -/
def reqMismatch : ReqState :=
  { user := some ⟨⟨"urn:a"⟩⟩, httpSignatureEnabled := true,
    httpSignatureUser := .ok (some ⟨⟨"urn:b"⟩⟩) }

/-- A request authenticated by session only. -/
def reqSession : ReqState :=
  { user := some ⟨⟨"urn:a"⟩⟩, httpSignatureEnabled := false,
    httpSignatureUser := .ok none }

/-!
## Helper lemmas
-/

/-- The retry loop reports success exactly when some id in the list
accepts the password. -/
theorem resetLoop_fst (p : String → Bool) (l : List String) :
    (resetLoop p l).1 = l.any p := by
  induction l with
  | nil => rfl
  | cons x xs ih =>
    by_cases h : p x
    · simp [resetLoop, h]
    · simp [resetLoop, h, ih]

/-- The retry loop attempts exactly the failing prefix plus the first
succeeding id, in list order. -/
theorem resetLoop_snd (p : String → Bool) (l : List String) :
    (resetLoop p l).2 =
      l.takeWhile (fun i => !p i) ++
        (l.dropWhile (fun i => !p i)).take 1 := by
  induction l with
  | nil => rfl
  | cons x xs ih =>
    by_cases h : p x
    · simp [resetLoop, h, List.takeWhile_cons, List.dropWhile_cons]
    · simp [resetLoop, h, List.takeWhile_cons, List.dropWhile_cons, ih]

/-- When every id fails, the retry loop attempts the whole list and
reports failure. -/
theorem resetLoop_exhaust (p : String → Bool) (l : List String)
    (h : l.any p = false) : resetLoop p l = (false, l) := by
  induction l with
  | nil => rfl
  | cons x xs ih =>
    simp only [List.any_cons, Bool.or_eq_false_iff] at h
    simp [resetLoop, h.1, ih h.2]

/-- A request authenticated by no method has no session user. -/
theorem user_none_of_checkAuthentication_none (req : ReqState)
    (h : checkAuthentication req = .ok none) : req.user = none := by
  unfold checkAuthentication at h
  cases hh : httpSignatureCheck req with
  | error e => rw [hh] at h; exact absurd h (by simp)
  | ok hs =>
    rw [hh] at h
    cases h1 : sessionCheck req with
    | none => exact h1
    | some s =>
      rw [h1] at h
      cases hs with
      | none => simp [authCombine] at h
      | some hU =>
        by_cases heq : s.identity.id = hU.identity.id
        · simp [authCombine, heq] at h
        · simp [authCombine, heq] at h

/-!
## Claim theorems
-/

/-- C1: when the session check and the HTTP-signature check each yield an
authenticated user and the two identity ids differ, `checkAuthentication`
calls back with the wrapped mismatch error — a `BedrockError` named
`bedrock.website.PermissionDenied` with `httpStatusCode` 400 whose outer
message is "Request authentication error." — and never calls back with an
identity. -/
theorem checkAuthentication_mismatch (req : ReqState) (s h : User)
    (hs : sessionCheck req = some s)
    (hh : httpSignatureCheck req = .ok (some h))
    (hne : s.identity.id ≠ h.identity.id) :
    checkAuthentication req = .error (wrapAuthError mismatchError) ∧
    (wrapAuthError mismatchError).name = "bedrock.website.PermissionDenied" ∧
    (wrapAuthError mismatchError).httpStatusCode = 400 ∧
    (wrapAuthError mismatchError).message = "Request authentication error." ∧
    ∀ info, checkAuthentication req ≠ .ok info := by
  have hmain : checkAuthentication req = .error (wrapAuthError mismatchError) := by
    unfold checkAuthentication
    rw [hh, hs]
    simp [authCombine, hne]
  refine ⟨hmain, rfl, rfl, rfl, ?_⟩
  intro info hinfo
  rw [hmain] at hinfo
  exact Except.noConfusion hinfo

/-- C1 witness: a request whose session user is `urn:a` and whose
signature user is `urn:b` is rejected with the wrapped mismatch error. -/
theorem checkAuthentication_mismatch_witness :
    checkAuthentication reqMismatch = .error (wrapAuthError mismatchError) :=
  (checkAuthentication_mismatch reqMismatch ⟨⟨"urn:a"⟩⟩ ⟨⟨"urn:b"⟩⟩
    rfl rfl (by decide)).1

/-- C2: when the HTTP-signature check yields a result (no strategy error)
and the two checks do not disagree on identity, `checkAuthentication`
calls back with the session user when the session check yields one,
otherwise the HTTP-signature user, otherwise `false` (here `none`). -/
theorem checkAuthentication_precedence (req : ReqState)
    (hsUser : Option User)
    (hh : httpSignatureCheck req = .ok hsUser)
    (hagree : ∀ s hU, sessionCheck req = some s → hsUser = some hU →
      s.identity.id = hU.identity.id) :
    checkAuthentication req = .ok ((sessionCheck req).or hsUser) := by
  unfold checkAuthentication
  rw [hh]
  cases h1 : sessionCheck req with
  | none => cases hsUser <;> simp [authCombine, Option.or]
  | some s =>
    cases h2 : hsUser with
    | none => simp [authCombine, Option.or]
    | some hU =>
      have heq := hagree s hU h1 h2
      simp [authCombine, Option.or, heq]

/-- C2 witness: a request authenticated by session only yields its
session user. -/
theorem checkAuthentication_precedence_witness :
    checkAuthentication reqSession = .ok (some ⟨⟨"urn:a"⟩⟩) :=
  checkAuthentication_precedence reqSession none rfl
    (fun _ _ _ habs => Option.noConfusion habs)

/-- C6: `ensureAuthenticated` invokes `next` without error exactly when
`checkAuthentication` produced an identity; when it produced `false` and
no error, `next` receives the `Not authenticated.` error of type
`bedrock.website.PermissionDenied` with `httpStatusCode` 400. -/
theorem ensureAuthenticated_spec (req : ReqState) :
    ((ensureAuthenticated req).1 = .noErr ↔
      ∃ u, checkAuthentication req = .ok (some u)) ∧
    (checkAuthentication req = .ok none →
      (ensureAuthenticated req).1 = .withErr notAuthenticatedError) ∧
    notAuthenticatedError.message = "Not authenticated." ∧
    notAuthenticatedError.name = "bedrock.website.PermissionDenied" ∧
    notAuthenticatedError.httpStatusCode = 400 := by
  refine ⟨?_, ?_, rfl, rfl, rfl⟩
  · cases hca : checkAuthentication req with
    | error e =>
      simp [ensureAuthenticated, optionallyAuthenticated, hca]
    | ok info =>
      cases info with
      | some u =>
        have h1 : (ensureAuthenticated req).1 = .noErr := by
          simp [ensureAuthenticated, optionallyAuthenticated, hca]
        rw [h1]
        exact iff_of_true rfl ⟨u, rfl⟩
      | none =>
        have hu := user_none_of_checkAuthentication_none req hca
        simp [ensureAuthenticated, optionallyAuthenticated, hca, hu]
  · intro hca
    have hu := user_none_of_checkAuthentication_none req hca
    simp [ensureAuthenticated, optionallyAuthenticated, hca, hu]

/-- C6 witness: on a request with no session user and the signature check
disabled, `ensureAuthenticated` passes the `Not authenticated.` error to
`next`. -/
theorem ensureAuthenticated_spec_witness :
    (ensureAuthenticated reqNone).1 = .withErr notAuthenticatedError :=
  (ensureAuthenticated_spec reqNone).2.1 rfl

/-- C8: the outcome of `checkAuthentication` does not depend on the
completion order of the two parallel checks, and equals a fixed function
of the two individual check results. -/
theorem checkAuthentication_deterministic :
    (∀ (o1 o2 : CompletionOrder) (req : ReqState),
      checkAuthenticationRun o1 req = checkAuthenticationRun o2 req) ∧
    (∀ (o : CompletionOrder) (req : ReqState),
      checkAuthenticationRun o req =
        authFromResults (sessionCheck req) (httpSignatureCheck req)) ∧
    (∀ (o : CompletionOrder) (req : ReqState),
      checkAuthenticationRun o req = checkAuthentication req) := by
  refine ⟨?_, ?_, ?_⟩
  · intro o1 o2 req
    cases o1 <;> cases o2 <;> rfl
  · intro o req
    cases o <;> rfl
  · intro o req
    cases o <;> rfl

/-- C10: when `checkAuthentication` calls back with `false` and no error,
`optionallyAuthenticated` leaves the request state — in particular
`req.user` — exactly as it was and invokes `next` without error. -/
theorem optionallyAuthenticated_frame (req : ReqState)
    (h : checkAuthentication req = .ok none) :
    optionallyAuthenticated req = (.noErr, req) := by
  unfold optionallyAuthenticated
  rw [h]

/-- C10 witness: on a request with no authentication present the state is
untouched and `next` is invoked without error. -/
theorem optionallyAuthenticated_frame_witness :
    optionallyAuthenticated reqNone = (.noErr, reqNone) :=
  optionallyAuthenticated_frame reqNone rfl

/-- C3: on each of the four delegating POST routes the schema-validation
middleware is registered before the handler, so a request failing
validation ends dispatch with the validation error and an empty
collaborator-call trace — the identity module and the passport strategies
are never invoked. -/
theorem routes_validate_before_handlers (c : Collab) (req : Request)
    (e : BedrockError) :
    (c.validate "services.session.postJoin" = some e →
      runChain postJoinChain c req = (.errored e, [])) ∧
    (c.validate "services.session.postLogin" = some e →
      runChain postLoginChain c req = (.errored e, [])) ∧
    (c.validate "services.session.postPasswordReset" = some e →
      runChain postPasswordResetChain c req = (.errored e, [])) ∧
    (c.validate "services.session.postPasscode" = some e →
      runChain postPasscodeChain c req = (.errored e, [])) := by
  refine ⟨?_, ?_, ?_, ?_⟩ <;> intro h <;>
    simp [runChain, postJoinChain, postLoginChain, postPasswordResetChain,
      postPasscodeChain, validateMw, h]

/-- C3 witness: with a collaborator record whose validation always fails,
all four routes end with the validation error and no collaborator
calls. -/
theorem routes_validate_before_handlers_witness :
    runChain postJoinChain collabInvalidBody reqEx =
      (.errored validationError0, []) ∧
    runChain postLoginChain collabInvalidBody reqEx =
      (.errored validationError0, []) ∧
    runChain postPasswordResetChain collabInvalidBody reqEx =
      (.errored validationError0, []) ∧
    runChain postPasscodeChain collabInvalidBody reqEx =
      (.errored validationError0, []) :=
  ⟨(routes_validate_before_handlers collabInvalidBody reqEx
      validationError0).1 rfl,
   (routes_validate_before_handlers collabInvalidBody reqEx
      validationError0).2.1 rfl,
   (routes_validate_before_handlers collabInvalidBody reqEx
      validationError0).2.2.1 rfl,
   (routes_validate_before_handlers collabInvalidBody reqEx
      validationError0).2.2.2 rfl⟩

/-- C4: when the identifier resolves, POST /session/password/reset
responds 204 exactly when some resolved identity accepts the password
set; otherwise it raises the `bedrock.services.PasswordResetFailed` error
with `httpStatusCode` 403. -/
theorem passwordReset_spec (c : Collab) (req : Request)
    (ids : List String)
    (hres : c.resolveIdentityIdentifier req.sysIdentifier = .ok ids) :
    ((passwordResetHandler c req).1 = .send 204 ↔
      ids.any c.setIdentityPassword = true) ∧
    (ids.any c.setIdentityPassword = false →
      (passwordResetHandler c req).1 = .nextErr passwordResetFailedError) ∧
    passwordResetFailedError.name = "bedrock.services.PasswordResetFailed" ∧
    passwordResetFailedError.httpStatusCode = 403 := by
  have hfst := resetLoop_fst c.setIdentityPassword ids
  refine ⟨?_, ?_, rfl, rfl⟩
  · by_cases hany : ids.any c.setIdentityPassword = true
    · simp [passwordResetHandler, hres, hfst, hany]
    · simp [passwordResetHandler, hres, hfst, hany]
  · intro hany
    simp [passwordResetHandler, hres, hfst, hany]

/-- C4 witness: with one resolved identity accepting the reset, the
handler responds 204. -/
theorem passwordReset_spec_witness :
    (passwordResetHandler collabResetOk reqEx).1 = .send 204 :=
  (passwordReset_spec collabResetOk reqEx ["urn:i1"] rfl).1.mpr rfl

/-- C5: when the identifier resolves to nothing, POST /session/passcode
raises the `bedrock.services.IdentityNotFound` error with
`httpStatusCode` 404; when it resolves and the lookups succeed, the
handler sends passcodes for every identity the lookup returned, with
usage `verify` exactly when the query parameter equals `verify` and
`reset` in every other case, and responds 204. -/
theorem passcode_spec (c : Collab) (req : Request) (ids : List String)
    (hres : c.resolveIdentityIdentifier req.sysIdentifier = .ok ids) :
    (ids = [] →
      (passcodeHandler c req).1 = .nextErr identityNotFoundError ∧
      identityNotFoundError.name = "bedrock.services.IdentityNotFound" ∧
      identityNotFoundError.httpStatusCode = 404) ∧
    (∀ identities, ids ≠ [] →
      c.getIdentities (ids.map c.hash) = .ok identities →
      c.sendIdentityPasscodes identities (passcodeUsage req.queryUsage) =
        none →
      passcodeHandler c req =
        (.send 204,
          [.resolveIdentityIdentifier req.sysIdentifier,
            .getIdentities (ids.map c.hash),
            .sendIdentityPasscodes identities
              (passcodeUsage req.queryUsage)])) ∧
    passcodeUsage req.queryUsage =
      (if req.queryUsage = some "verify" then "verify" else "reset") := by
  refine ⟨?_, ?_, ?_⟩
  · intro hnil
    subst hnil
    exact ⟨by simp [passcodeHandler, hres], rfl, rfl⟩
  · intro identities hne hget hsend
    have hlen : ¬ ids.length = 0 := by
      simpa [List.length_eq_zero] using hne
    simp [passcodeHandler, hres, hlen, hget, hsend]
  · unfold passcodeUsage
    by_cases h : req.queryUsage = some "verify"
    · simp [h]
    · simp [h, ite_self]

/-- C5 witness: one resolved identity, successful lookups and a default
usage give a 204 response with a passcode sent under usage `reset`. -/
theorem passcode_spec_witness :
    passcodeHandler collabPasscode reqEx =
      (.send 204,
        [.resolveIdentityIdentifier "user@example.com",
          .getIdentities ["urn:i1"],
          .sendIdentityPasscodes [] "reset"]) :=
  (passcode_spec collabPasscode reqEx ["urn:i1"] rfl).2.1 []
    (by simp) rfl rfl

/-- C7: the password-reset retry loop is a total function that attempts
the resolved identities in order, stops immediately after the first
successful attempt, reports success exactly when some identity accepts
the password, and attempts the whole list and reports failure when none
does. -/
theorem resetLoop_first_success (p : String → Bool) (ids : List String) :
    (resetLoop p ids).2 =
      ids.takeWhile (fun i => !p i) ++
        (ids.dropWhile (fun i => !p i)).take 1 ∧
    (resetLoop p ids).1 = ids.any p ∧
    (ids.any p = false → resetLoop p ids = (false, ids)) :=
  ⟨resetLoop_snd p ids, resetLoop_fst p ids, resetLoop_exhaust p ids⟩

/-- C7 witness: when every attempt fails the loop tries the whole list in
order and stops with failure. -/
theorem resetLoop_first_success_witness :
    resetLoop (fun _ => false) ["urn:a", "urn:b"] =
      (false, ["urn:a", "urn:b"]) :=
  (resetLoop_first_success (fun _ => false) ["urn:a", "urn:b"]).2.2 rfl

/-- C9 counterexample: with a password strategy that fails with no
matches, `api.login` delivers the invalid-login error through the
callback while `_login` delivers it through `next`, so the two functions
are not equivalent as claimed. -/
theorem apiLogin_routeLogin_differ :
    apiLogin collabBase ≠ routeLogin collabBase := by decide

/-- C9 amended: the two login implementations deliver the same error,
user and choice values and make the same collaborator calls, but not
always through the same channel — `_login` routes strategy-failure,
identity-lookup and invalid-login errors through `next` where `api.login`
uses the callback. -/
theorem apiLogin_routeLogin_data_eq (c : Collab) :
    outcomeData (apiLogin c).1 = outcomeData (routeLogin c).1 ∧
    (apiLogin c).2 = (routeLogin c).2 := by
  unfold apiLogin routeLogin
  cases hap : c.authenticatePassword with
  | authenticated user =>
    cases hli : c.logIn user <;> simp [outcomeData]
  | failed email ms =>
    cases ms with
    | none => simp [outcomeData]
    | some matchList =>
      rcases hbc : buildChoice c.getIdentity matchList with ⟨r, t⟩
      cases r <;> simp [hbc, outcomeData]
